import Mathlib

/-!
Shallow embedding of the planador-iot flight core (src/src/micropython/) and
proofs about its specified behaviour.

Conventions of the embedding:
* Python floats are modelled as rationals (ℚ): the claims treated here are about
  algebraic structure (clamping, guards, state transitions), not IEEE rounding.
* MicroPython millisecond/microsecond tick counters are modelled as integers,
  with `time.ticks_diff(a, b)` modelled as `a - b`.
* Mutating methods become functions `state → inputs → state × result`.
* A Python statement that can raise is modelled with `Option` / `Except`:
  `none` / `.error` is a raised exception.
-/

namespace Planador

/-! ## config.py -/

/-- Embedding of the `SAFETY_LIMITS` dict of config.py (one field per key).
Angle and integral limits are rationals because they are compared against
float arithmetic; pulse widths and duty values are integers. -/
structure SafetyLimits where
  servo_min_angle : ℚ
  servo_max_angle : ℚ
  servo_neutral_angle : ℚ
  pwm_min_duty : ℤ
  pwm_max_duty : ℤ
  rc_min_pulse : ℤ
  rc_max_pulse : ℤ
  rc_neutral_pulse : ℤ
  max_pid_integral : ℚ
  sensor_timeout : ℕ
  rc_timeout : ℕ

/-- The `SAFETY_LIMITS` values of config.py. -/
def SAFETY_LIMITS : SafetyLimits :=
  { servo_min_angle := 30
    servo_max_angle := 150
    servo_neutral_angle := 90
    pwm_min_duty := 40
    pwm_max_duty := 115
    rc_min_pulse := 800
    rc_max_pulse := 2200
    rc_neutral_pulse := 1500
    max_pid_integral := 10
    sensor_timeout := 10000
    rc_timeout := 3000 }

/-- Embedding of the `SYSTEM_CONFIG` dict of config.py. -/
structure SystemConfig where
  main_loop_frequency : ℕ
  telemetry_interval : ℤ
  rc_read_interval : ℤ
  button_debounce : ℤ
  led_blink_fast : ℤ
  led_blink_slow : ℤ
  servo_frequency : ℕ
  i2c_frequency : ℕ

/-- The `SYSTEM_CONFIG` values of config.py. -/
def SYSTEM_CONFIG : SystemConfig :=
  { main_loop_frequency := 50
    telemetry_interval := 3000
    rc_read_interval := 50
    button_debounce := 300
    led_blink_fast := 200
    led_blink_slow := 1000
    servo_frequency := 50
    i2c_frequency := 400000 }

/-- Embedding of the `RELEASE_CONFIG` dict of config.py. -/
structure ReleaseConfig where
  locked_position : ℤ
  release_position : ℤ
  rc_threshold : ℤ
  safety_delay : ℤ
  auto_lock_time : ℤ
  emergency_override : Bool

/-- The `RELEASE_CONFIG` values of config.py. -/
def RELEASE_CONFIG : ReleaseConfig :=
  { locked_position := 45
    release_position := 135
    rc_threshold := 1700
    safety_delay := 2000
    auto_lock_time := 5000
    emergency_override := true }

/-- One entry of the `FLIGHT_MODES` table as pid_controller.py reads it:
`mode['gains']` is a 9-tuple indexed 0..8 (Kp, Ki, Kd for roll, pitch, yaw),
`mode['limits']` a 3-tuple, `mode['target']` a (roll, pitch) pair and
`mode['flaps']` the flap bias.  The `'name'` string entry is omitted (it never
enters the computations treated here). -/
structure FlightMode where
  gains : Fin 9 → ℚ
  limits : Fin 3 → ℚ
  target : Fin 2 → ℚ
  flaps : ℚ

instance : Inhabited FlightMode :=
  ⟨{ gains := fun _ => 0, limits := fun _ => 0, target := fun _ => 0, flaps := 0 }⟩

/-- The `STABILIZATION_GAINS` tuple of config.py,
`(2.0, 0.15, 1.0, 2.5, 0.18, 1.2, 1.2, 0.06, 0.5)`, as a function of the
index. -/
def STABILIZATION_GAINS : Fin 9 → ℚ := fun i =>
  match i with
  | 0 => 2.0
  | 1 => 0.15
  | 2 => 1.0
  | 3 => 2.5
  | 4 => 0.18
  | 5 => 1.2
  | 6 => 1.2
  | 7 => 0.06
  | 8 => 0.5

/-- The `STABILIZATION_LIMITS` tuple of config.py, `(25, 30, 18)`. -/
def STABILIZATION_LIMITS : Fin 3 → ℚ := fun i =>
  match i with
  | 0 => 25
  | 1 => 30
  | 2 => 18

/-- Modelled from the spec: pid_controller.py imports `FLIGHT_MODES` from config,
but the gains-table `FLIGHT_MODES` dict it expects (entries with 'gains',
'limits', 'target', 'flaps') is absent from the sources under src — config.py
defines only `STABILIZATION_GAINS` and `STABILIZATION_LIMITS`.  Spec §3 and
scenarios 1–2 of §8 fix one mode with exactly those gains and limits, target
(0, 0) and flap bias 0.  Every theorem below quantifies over an arbitrary
table; this value only instantiates witnesses. -/
def specFlightMode : FlightMode :=
  { gains := STABILIZATION_GAINS
    limits := STABILIZATION_LIMITS
    target := fun _ => 0
    flaps := 0 }

/-- Modelled from the spec: a one-mode stand-in for the absent `FLIGHT_MODES`
table, used only in witnesses. -/
def specFLIGHT_MODES : List FlightMode := [specFlightMode]

/-! ## pid_controller.py -/

/-- The mutable state of class `PIDController`: `self.integral`,
`self.prev_error` (lists of three floats, modelled as `Fin 3 → ℚ`) and
`self.flight_mode`. -/
structure PIDController where
  integral : Fin 3 → ℚ
  prev_error : Fin 3 → ℚ
  flight_mode : ℕ

/-- `PIDController.__init__`: zeroed state, default flight mode 0. -/
def PIDController.init : PIDController :=
  { integral := fun _ => 0, prev_error := fun _ => 0, flight_mode := 0 }

/-- `PIDController.reset`: integral and previous errors back to zero. -/
def PIDController.reset (s : PIDController) : PIDController :=
  { s with integral := fun _ => 0, prev_error := fun _ => 0 }

/-- `PIDController.set_flight_mode`: accepts an index in range (the Python
check `0 <= mode_index < len(FLIGHT_MODES)` with a natural-number index);
on an actual change it stores the index and resets the internal state. -/
def PIDController.set_flight_mode (table : List FlightMode) (s : PIDController)
    (mode_index : ℕ) : PIDController × Bool :=
  if mode_index < table.length then
    (if s.flight_mode ≠ mode_index then
      PIDController.reset { s with flight_mode := mode_index }
     else s, true)
  else (s, false)

/-- Line 101 of pid_controller.py:
`max(-SAFETY_LIMITS['max_pid_integral'], min(SAFETY_LIMITS['max_pid_integral'], x))`. -/
def clamp_integral (x : ℚ) : ℚ :=
  max (-SAFETY_LIMITS.max_pid_integral) (min SAFETY_LIMITS.max_pid_integral x)

/-- `PIDController._limit_output`: `max(-limit, min(limit, output))`. -/
def limit_output (output limit : ℚ) : ℚ :=
  max (-limit) (min limit output)

/-- The `errors` tuple computed in `PIDController.calculate`:
`(target[0] - roll, target[1] - pitch, -yaw_rate)`. -/
def pid_errors (mode : FlightMode) (roll pitch yaw_rate : ℚ) : Fin 3 → ℚ := fun i =>
  match i with
  | 0 => mode.target 0 - roll
  | 1 => mode.target 1 - pitch
  | 2 => -yaw_rate

/-- `PIDController.calculate(self, roll, pitch, yaw_rate, dt=0.1)`.
The flight-mode table (the module-level `FLIGHT_MODES`) is passed explicitly;
`table.getD s.flight_mode default` is the lookup `FLIGHT_MODES[self.flight_mode]`
(in-range whenever the index was set through `set_flight_mode`).
The `for i in range(3)` loop updates and clamps each `self.integral[i]`
independently, so it is embedded componentwise.  The derivative line
`(errors[i] - self.prev_error[i]) / dt` has no guard: when `dt = 0` Python
raises ZeroDivisionError after the integral update and before `self.prev_error`
is reassigned — that outcome is the `none` result here. -/
def PIDController.calculate (table : List FlightMode) (s : PIDController)
    (roll pitch yaw_rate : ℚ) (dt : ℚ) : PIDController × Option (ℚ × ℚ × ℚ) :=
  let mode := table.getD s.flight_mode default
  let gains := mode.gains
  let limits := mode.limits
  let errors := pid_errors mode roll pitch yaw_rate
  let integral : Fin 3 → ℚ := fun i => clamp_integral (s.integral i + errors i * dt)
  if dt = 0 then
    ({ s with integral := integral }, none)
  else
    let derivatives : Fin 3 → ℚ := fun i => (errors i - s.prev_error i) / dt
    let roll_out := gains 0 * errors 0 + gains 1 * integral 0 + gains 2 * derivatives 0
    let pitch_out := gains 3 * errors 1 + gains 4 * integral 1 + gains 5 * derivatives 1
    let yaw_out := gains 6 * errors 2 + gains 7 * integral 2 + gains 8 * derivatives 2
    ({ s with integral := integral, prev_error := errors },
      some (limit_output roll_out (limits 0), limit_output pitch_out (limits 1),
        limit_output yaw_out (limits 2)))

/-- Line 159 of pid_controller.py:
`max(SAFETY_LIMITS['servo_min_angle'], min(SAFETY_LIMITS['servo_max_angle'], cmd))`. -/
def clamp_servo (cmd : ℚ) : ℚ :=
  max SAFETY_LIMITS.servo_min_angle (min SAFETY_LIMITS.servo_max_angle cmd)

/-- Python `int(x)`: truncation toward zero (written with the computable
`Rat.floor` / `Rat.ceil`, so that concrete runs evaluate). -/
def pyInt (x : ℚ) : ℤ :=
  if x < 0 then x.ceil else x.floor

/-- `PIDController.calculate_servo_commands`: calls `self.calculate` with the
default timestep `dt = 0.1`, mixes the PID outputs with the neutral angle and
the active mode's flap bias, then clamps and integer-converts each command.
A `none` outcome of `calculate` propagates (the exception would escape). -/
def PIDController.calculate_servo_commands (table : List FlightMode)
    (s : PIDController) (roll pitch yaw_rate : ℚ) :
    PIDController × Option (List ℤ) :=
  match PIDController.calculate table s roll pitch yaw_rate (1/10) with
  | (s2, none) => (s2, none)
  | (s2, some pid_out) =>
    let mode := table.getD s.flight_mode default
    let flaps_base := mode.flaps
    let flaps_left := SAFETY_LIMITS.servo_neutral_angle + flaps_base - pid_out.1
    let flaps_right := SAFETY_LIMITS.servo_neutral_angle + flaps_base + pid_out.1
    let elevator := SAFETY_LIMITS.servo_neutral_angle - pid_out.2.1
    let rudder := SAFETY_LIMITS.servo_neutral_angle + pid_out.2.2
    (s2, some ([flaps_left, flaps_right, elevator, rudder].map
      fun cmd => pyInt (clamp_servo cmd)))

/-! ## release_system.py -/

/-- A Python exception that escapes the function under consideration. -/
inductive PyErr
  | typeError
  | zeroDivisionError
  deriving DecidableEq

/-- The four values of `self.state` in class `ReleaseSystem`. -/
inductive RState
  | LOCKED
  | ARMED
  | RELEASING
  | RELEASED
  deriving DecidableEq

/-- The mutable state of class `ReleaseSystem`.  `servo` is `some a` when the
release servo was initialized and its last commanded angle is `a` (the PWM
duty written by `_set_servo_position` is a fixed function of the angle, so the
angle is what the embedding records); `none` models `self.servo = None`. -/
structure ReleaseSystem where
  state : RState
  armed_time : ℤ
  release_time : ℤ
  servo : Option ℤ
  deriving DecidableEq

/-- `ReleaseSystem._set_servo_position`: writes the duty for `angle` when the
servo exists, recorded here as the commanded angle. -/
def ReleaseSystem.set_servo_position (s : ReleaseSystem) (angle : ℤ) : ReleaseSystem :=
  match s.servo with
  | none => s
  | some _ => { s with servo := some angle }

/-- `ReleaseSystem._handle_locked_state(self, current_time, rc_signal)`. -/
def ReleaseSystem.handle_locked_state (s : ReleaseSystem)
    (current_time rc_signal : ℤ) : ReleaseSystem :=
  if rc_signal > RELEASE_CONFIG.rc_threshold then
    { s with state := .ARMED, armed_time := current_time }
  else s

/-- `ReleaseSystem._initiate_release(self, current_time)`. -/
def ReleaseSystem.initiate_release (s : ReleaseSystem) (current_time : ℤ) : ReleaseSystem :=
  ReleaseSystem.set_servo_position
    { s with state := .RELEASING, release_time := current_time }
    RELEASE_CONFIG.release_position

/-- `ReleaseSystem._handle_armed_state(self, current_time, rc_signal)`. -/
def ReleaseSystem.handle_armed_state (s : ReleaseSystem)
    (current_time rc_signal : ℤ) : ReleaseSystem :=
  if rc_signal < RELEASE_CONFIG.rc_threshold then
    { s with state := .LOCKED }
  else if current_time - s.armed_time ≥ RELEASE_CONFIG.safety_delay then
    (if rc_signal > RELEASE_CONFIG.rc_threshold then s.initiate_release current_time else s)
  else s

/-- `ReleaseSystem._handle_releasing_state(self, current_time)` — note the
source signature takes only `current_time`.  The literal `500` is the
release-duration constant in the source. -/
def ReleaseSystem.handle_releasing_state (s : ReleaseSystem)
    (current_time : ℤ) : ReleaseSystem :=
  if current_time - s.release_time ≥ 500 then
    { s with state := .RELEASED }
  else s

/-- `ReleaseSystem.lock`: servo to `locked_position` and state LOCKED, when the
servo exists. -/
def ReleaseSystem.lock (s : ReleaseSystem) : ReleaseSystem :=
  match s.servo with
  | none => s
  | some _ =>
    { s.set_servo_position RELEASE_CONFIG.locked_position with state := .LOCKED }

/-- `ReleaseSystem._handle_released_state(self, current_time)` — note the
source signature takes only `current_time`. -/
def ReleaseSystem.handle_released_state (s : ReleaseSystem)
    (current_time : ℤ) : ReleaseSystem :=
  if current_time - s.release_time ≥ RELEASE_CONFIG.auto_lock_time then
    s.lock
  else s

/-- `ReleaseSystem.update`: dispatches on `self.state` via the
`state_handlers` dict and calls `handler(current_time, rc_signal)` — two
positional arguments for every handler.  `_handle_locked_state` and
`_handle_armed_state` accept them; `_handle_releasing_state` and
`_handle_released_state` are defined with only `current_time`, so for the
states RELEASING and RELEASED the call raises
`TypeError: ... takes 2 positional arguments but 3 were given`
before any handler body runs.  `current_time` is `time.ticks_ms()` and
`rc_signal` the fresh `read_channel` result, both passed in here. -/
def ReleaseSystem.update (s : ReleaseSystem) (current_time rc_signal : ℤ) :
    Except PyErr ReleaseSystem :=
  match s.servo with
  | none => .ok s
  | some _ =>
    match s.state with
    | .LOCKED => .ok (s.handle_locked_state current_time rc_signal)
    | .ARMED => .ok (s.handle_armed_state current_time rc_signal)
    | .RELEASING => .error .typeError
    | .RELEASED => .error .typeError

/-- `ReleaseSystem.emergency_release`: returns False when the override is
disabled or the servo is missing; otherwise servo to `release_position`,
state RELEASED, `release_time` refreshed (the LED alert pulse has no effect
on this state), returns True.  `now` is the `time.ticks_ms()` reading. -/
def ReleaseSystem.emergency_release (s : ReleaseSystem) (now : ℤ) :
    ReleaseSystem × Bool :=
  if RELEASE_CONFIG.emergency_override = false ∨ s.servo = none then
    (s, false)
  else
    ({ s.set_servo_position RELEASE_CONFIG.release_position with
        state := .RELEASED, release_time := now }, true)

/-! ## hardware.py — class RCReceiver -/

/-- The mutable state of class `RCReceiver`: whether `self.rc_pin` was
initialized (not None), and `self.last_read_time` in ms. -/
structure RCReceiver where
  rc_pin : Bool
  last_read_time : ℤ
  deriving DecidableEq

/-- Outcome of the busy-wait pulse measurement inside a fresh
`read_channel` read (the piece of the method that polls the pin):
* `lowTimeout` — the wait-for-high loop exceeded `sensor_timeout` iterations
  (the method returns neutral);
* `pulse width` — a rising edge was seen and the measured width is
  `ticks_diff(ticks_us(), start_time)` (if the wait-for-low loop broke on
  `rc_timeout`, `width` is simply the capped measurement);
* `raised` — an exception inside the `try` block (caught, returns neutral). -/
inductive PulseMeasurement
  | lowTimeout
  | pulse (width : ℤ)
  | raised

/-- `RCReceiver.read_channel`: returns the neutral pulse when the pin is
missing or the call is within `rc_read_interval` ms of the last fresh read;
otherwise stamps `last_read_time` and measures, substituting the neutral
pulse whenever the measured width falls outside
`[rc_min_pulse, rc_max_pulse]`.  `now_ms` is the `time.ticks_ms()` reading. -/
def RCReceiver.read_channel (s : RCReceiver) (now_ms : ℤ)
    (m : PulseMeasurement) : RCReceiver × ℤ :=
  if s.rc_pin = false ∨ now_ms - s.last_read_time < SYSTEM_CONFIG.rc_read_interval then
    (s, SAFETY_LIMITS.rc_neutral_pulse)
  else
    let s2 : RCReceiver := { s with last_read_time := now_ms }
    match m with
    | .lowTimeout => (s2, SAFETY_LIMITS.rc_neutral_pulse)
    | .raised => (s2, SAFETY_LIMITS.rc_neutral_pulse)
    | .pulse width =>
      (s2, if SAFETY_LIMITS.rc_min_pulse ≤ width ∧ width ≤ SAFETY_LIMITS.rc_max_pulse
        then width else SAFETY_LIMITS.rc_neutral_pulse)

/-! ## sensors.py — class SensorManager -/

/-- The mutable state of class `SensorManager`: `self.mpu6050.available` and
`self.using_real_sensor` (which sensor object `self.sensor` refers to). -/
structure SensorManager where
  mpu6050_available : Bool
  using_real_sensor : Bool

/-- `SensorManager.__init__`: the MPU6050 availability probe decides the
initial source — real when available, `SimulatedSensor` otherwise. -/
def SensorManager.init (available : Bool) : SensorManager :=
  { mpu6050_available := available, using_real_sensor := available }

/-- One raw accelerometer/gyro sample `(ax, ay, az, gz)`. -/
abbrev RawSample := ℚ × ℚ × ℚ × ℚ

/-- Attitude sample `(roll, pitch, yaw_rate, is_valid)` as returned by
`SensorManager.read_attitude`. -/
abbrev AttitudeSample := ℚ × ℚ × ℚ × Bool

/-- `SensorManager.read_attitude`.  Inputs of the shallow embedding:
* `calcAtt` — the `calculate_attitude` computation (`atan2`/`sqrt` based,
  identical in `MPU6050` and `SimulatedSensor`); kept abstract because it is
  transcendental, and irrelevant to the claims treated here;
* `realRead` — what `MPU6050.read_raw_data` returns for this call (`none`
  models its internal error path returning None);
* `simRead` — what `SimulatedSensor.read_raw_data` returns for this call
  (the sinusoid generator: always a tuple, never None, so the
  `return (0.0, 0.0, 0.0, False)` branch of the source is unreachable on the
  simulated path).
On a failed real read the manager permanently switches `self.sensor` to a
`SimulatedSensor` and re-reads; every path returns a quadruple — the
enclosing try/except converts any residual exception into
`(0.0, 0.0, 0.0, False)`, so the embedding is a total function. -/
def SensorManager.read_attitude (s : SensorManager)
    (calcAtt : ℚ → ℚ → ℚ → ℚ × ℚ)
    (realRead : Option RawSample) (simRead : RawSample) :
    SensorManager × AttitudeSample :=
  if s.using_real_sensor then
    match realRead with
    | none =>
      let s2 : SensorManager := { s with using_real_sensor := false }
      let (ax, ay, az, gz) := simRead
      let (roll, pitch) := calcAtt ax ay az
      (s2, (roll, pitch, gz, false))
    | some (ax, ay, az, gz) =>
      let (roll, pitch) := calcAtt ax ay az
      (s, (roll, pitch, gz, true))
  else
    let (ax, ay, az, gz) := simRead
    let (roll, pitch) := calcAtt ax ay az
    (s, (roll, pitch, gz, false))

/-- A session fragment: `read_attitude` over a list of per-call inputs,
collecting the returned samples. -/
def SensorManager.runReads (calcAtt : ℚ → ℚ → ℚ → ℚ × ℚ)
    (s : SensorManager) :
    List (Option RawSample × RawSample) → SensorManager × List AttitudeSample
  | [] => (s, [])
  | (realRead, simRead) :: rest =>
    let (s2, out) := s.read_attitude calcAtt realRead simRead
    let (s3, outs) := SensorManager.runReads calcAtt s2 rest
    (s3, out :: outs)

/-! ## main_modular.py — class PlanadorSystem -/

/-- The per-tick outcomes of the collaborator calls made inside
`PlanadorSystem._main_loop`, in source order.  Each stage is the Python
statement's outcome: `.error e` models that statement raising `e`.
`pid_apply` covers `calculate_servo_commands` together with
`apply_commands` (its value is the command list applied). -/
structure TickEnv where
  sensor : Except PyErr AttitudeSample
  controls : Except PyErr Unit
  pid_apply : Except PyErr (List ℤ)
  release : Except PyErr Unit
  leds : Except PyErr Unit
  telemetry : Except PyErr Unit

/-- The orchestrator state that the tick mutates: `self.loop_count`,
`self.system_active`, and the last angles written to the four control servos
(`ServoManager`). -/
structure MainState where
  loop_count : ℕ
  system_active : Bool
  servos : List ℤ
  deriving DecidableEq

/-- `ServoManager.set_neutral`: all four control servos to the neutral
angle. -/
def set_neutral (s : MainState) : MainState :=
  { s with servos := List.replicate 4 90 }

/-- The `try` block of `PlanadorSystem._main_loop` (after the `loop_count`
increment): runs the stages in source order, stopping at the first raising
stage; returns the state as mutated so far together with the escaping
exception, if any.  Telemetry only runs every 30th tick. -/
def tickBody (s : MainState) (env : TickEnv) : MainState × Option PyErr :=
  match env.sensor with
  | .error e => (s, some e)
  | .ok _ =>
    match env.controls with
    | .error e => (s, some e)
    | .ok _ =>
      let step3 : MainState × Option PyErr :=
        if s.system_active then
          match env.pid_apply with
          | .error e => (s, some e)
          | .ok cmds => ({ s with servos := cmds }, none)
        else (set_neutral s, none)
      match step3 with
      | (s1, some e) => (s1, some e)
      | (s1, none) =>
        match env.release with
        | .error e => (s1, some e)
        | .ok _ =>
          match env.leds with
          | .error e => (s1, some e)
          | .ok _ =>
            if s1.loop_count % 30 = 0 then
              match env.telemetry with
              | .error e => (s1, some e)
              | .ok _ => (s1, none)
            else (s1, none)

/-- `PlanadorSystem._main_loop`: increments `loop_count`, runs the tick body,
and catches any exception at the tick boundary — logging it and forcing all
servos to neutral.  The function is total: no exception propagates to the
caller (`run`), so the loop proceeds to the next tick. -/
def main_loop (s : MainState) (env : TickEnv) : MainState :=
  let s0 : MainState := { s with loop_count := s.loop_count + 1 }
  match tickBody s0 env with
  | (s1, none) => s1
  | (s1, some _) => set_neutral s1

/-! ## PIDController interface, for the integral invariant -/

/-- The invariant of the claim: each `integral[i]` lies within
`[-max_pid_integral, +max_pid_integral]`. -/
def IntegralBounded (s : PIDController) : Prop :=
  ∀ i : Fin 3, -SAFETY_LIMITS.max_pid_integral ≤ s.integral i ∧
    s.integral i ≤ SAFETY_LIMITS.max_pid_integral

/-- The state-mutating operations of the `PIDController` interface:
`calculate` (with arbitrary attitude inputs and dt, also as invoked by
`calculate_servo_commands`), `reset` (which `emergency_stop` also calls),
and `set_flight_mode`. -/
inductive PIDOp
  | calcOp (roll pitch yaw_rate dt : ℚ)
  | servoOp (roll pitch yaw_rate : ℚ)
  | resetOp
  | setModeOp (mode_index : ℕ)

/-- State transition of one interface operation (outputs discarded; a
`calculate` whose derivative division raises still keeps its partial
integral update, as in the source). -/
def PIDController.applyOp (table : List FlightMode) (s : PIDController) :
    PIDOp → PIDController
  | .calcOp roll pitch yaw_rate dt =>
    (PIDController.calculate table s roll pitch yaw_rate dt).1
  | .servoOp roll pitch yaw_rate =>
    (PIDController.calculate_servo_commands table s roll pitch yaw_rate).1
  | .resetOp => s.reset
  | .setModeOp mode_index => (PIDController.set_flight_mode table s mode_index).1

/-! ## Theorems -/

/-- Claim C1 (code bug): with an initialized servo, `update()` in state
RELEASING (resp. RELEASED) never performs the specified time-gated transition:
the dispatch `handler(current_time, rc_signal)` passes two arguments to
`_handle_releasing_state` / `_handle_released_state`, which accept only
`current_time`, so the call raises TypeError — here, at release_time 0 with
the elapsed-time conditions amply met (1000 ms ≥ 500, 6000 ms ≥ 5000).
The last three conjuncts evaluate the handlers themselves at those inputs,
showing the transitions the state machine table intends (RELEASING → RELEASED,
RELEASED → LOCKED with the servo back at `locked_position`) — which `update`
can never reach. -/
theorem update_releasing_released_raises_typeerror :
    ReleaseSystem.update ⟨.RELEASING, 0, 0, some 135⟩ 1000 1500 = .error .typeError ∧
    ReleaseSystem.update ⟨.RELEASED, 0, 0, some 135⟩ 6000 1500 = .error .typeError ∧
    (ReleaseSystem.handle_releasing_state ⟨.RELEASING, 0, 0, some 135⟩ 1000).state = .RELEASED ∧
    (ReleaseSystem.handle_released_state ⟨.RELEASED, 0, 0, some 135⟩ 6000).state = .LOCKED ∧
    (ReleaseSystem.handle_released_state ⟨.RELEASED, 0, 0, some 135⟩ 6000).servo =
      some RELEASE_CONFIG.locked_position := by
  refine ⟨rfl, rfl, ?_, ?_, ?_⟩ <;> decide

/-- Claim C7: from any state, with the emergency override enabled (as it is in
`RELEASE_CONFIG`) and the servo initialized, `emergency_release()` puts the
system in state RELEASED with the servo at `release_position` on the same call
and returns True. -/
theorem emergency_release_immediate (s : ReleaseSystem) (now : ℤ)
    (hservo : s.servo.isSome) (hov : RELEASE_CONFIG.emergency_override = true) :
    (s.emergency_release now).1.state = .RELEASED ∧
    (s.emergency_release now).1.servo = some RELEASE_CONFIG.release_position ∧
    (s.emergency_release now).2 = true := by
  obtain ⟨a, ha⟩ := Option.isSome_iff_exists.mp hservo
  simp [ReleaseSystem.emergency_release, ReleaseSystem.set_servo_position, ha, hov]

/-- Witness for `emergency_release_immediate` at a concrete LOCKED system. -/
theorem emergency_release_immediate_witness :
    ((⟨.LOCKED, 0, 0, some 45⟩ : ReleaseSystem).emergency_release 100).1.state = .RELEASED ∧
    ((⟨.LOCKED, 0, 0, some 45⟩ : ReleaseSystem).emergency_release 100).1.servo =
      some RELEASE_CONFIG.release_position ∧
    ((⟨.LOCKED, 0, 0, some 45⟩ : ReleaseSystem).emergency_release 100).2 = true :=
  emergency_release_immediate ⟨.LOCKED, 0, 0, some 45⟩ 100 (by decide) (by decide)

/-- Claim C3 (counterexample): a fresh `read_channel` at t = 100 ms measures
and returns 1800 µs and stamps `last_read_time = 100`; a second call 30 ms
later (within the 50 ms `rc_read_interval`) returns 1500 — the neutral
constant — and not the 1800 µs measured by the most recent fresh read. -/
theorem read_channel_cached_value_counterexample :
    (RCReceiver.read_channel ⟨true, 0⟩ 100 (.pulse 1800)).2 = 1800 ∧
    (RCReceiver.read_channel ⟨true, 0⟩ 100 (.pulse 1800)).1.last_read_time = 100 ∧
    (RCReceiver.read_channel
      (RCReceiver.read_channel ⟨true, 0⟩ 100 (.pulse 1800)).1 130 (.pulse 1800)).2 = 1500 ∧
    (1500 : ℤ) ≠ 1800 := by
  decide

/-- Claim C3 (amended): a `read_channel` call within `rc_read_interval` of the
last fresh read returns the constant `rc_neutral_pulse` (1500) — the method
keeps no cache of the last measured value — and leaves the receiver state
unchanged. -/
theorem read_channel_rate_limited_neutral (s : RCReceiver) (now_ms : ℤ)
    (m : PulseMeasurement)
    (h : now_ms - s.last_read_time < SYSTEM_CONFIG.rc_read_interval) :
    s.read_channel now_ms m = (s, SAFETY_LIMITS.rc_neutral_pulse) := by
  simp [RCReceiver.read_channel, h]

/-- Witness for `read_channel_rate_limited_neutral`: a call 30 ms after the
last fresh read. -/
theorem read_channel_rate_limited_neutral_witness :
    RCReceiver.read_channel ⟨true, 100⟩ 130 (.pulse 1800) =
      (⟨true, 100⟩, SAFETY_LIMITS.rc_neutral_pulse) :=
  read_channel_rate_limited_neutral ⟨true, 100⟩ 130 (.pulse 1800) (by decide)

/-- Claim C9: every value `read_channel` returns lies within
`[rc_min_pulse, rc_max_pulse]` or is the neutral pulse; in particular a fresh
read measuring 3000 µs (outside [800, 2200]) returns the neutral 1500. -/
theorem read_channel_range :
    (∀ (s : RCReceiver) (now_ms : ℤ) (m : PulseMeasurement),
      (SAFETY_LIMITS.rc_min_pulse ≤ (s.read_channel now_ms m).2 ∧
        (s.read_channel now_ms m).2 ≤ SAFETY_LIMITS.rc_max_pulse) ∨
      (s.read_channel now_ms m).2 = SAFETY_LIMITS.rc_neutral_pulse) ∧
    (RCReceiver.read_channel ⟨true, 0⟩ 100 (.pulse 3000)).2 = 1500 := by
  constructor
  · intro s now_ms m
    unfold RCReceiver.read_channel
    split
    · right; rfl
    · cases m with
      | lowTimeout => right; rfl
      | raised => right; rfl
      | pulse width =>
        dsimp only
        split
        · next hin => exact Or.inl hin
        · right; rfl
  · decide

/-- Helper: once `using_real_sensor` is false, a single `read_attitude` keeps
it false and reports an invalid sample, whatever the inputs. -/
theorem read_attitude_sticky_step (calcAtt : ℚ → ℚ → ℚ → ℚ × ℚ)
    (s : SensorManager) (realRead : Option RawSample) (simRead : RawSample)
    (h : s.using_real_sensor = false) :
    (s.read_attitude calcAtt realRead simRead).1.using_real_sensor = false ∧
    (s.read_attitude calcAtt realRead simRead).2.2.2.2 = false := by
  obtain ⟨ax, ay, az, gz⟩ := simRead
  rcases hc : calcAtt ax ay az with ⟨roll, pitch⟩
  simp [SensorManager.read_attitude, h, hc]

/-- Claim C6: the availability probe failing at construction starts the
manager on the simulated source; a runtime real-sensor read returning None
switches to the simulated source and reports an invalid sample; and from any
state already on the simulated source, every subsequent `read_attitude` of
the session leaves `using_real_sensor` false and reports `valid = false`
(the embedding is a total function: the source's catch-all except turns any
failure into the `(0.0, 0.0, 0.0, False)` sample, so no call raises). -/
theorem sensor_fallback_sticky (calcAtt : ℚ → ℚ → ℚ → ℚ × ℚ) :
    (SensorManager.init false).using_real_sensor = false ∧
    (∀ (s : SensorManager) (simRead : RawSample),
      (s.read_attitude calcAtt none simRead).1.using_real_sensor = false ∧
      (s.read_attitude calcAtt none simRead).2.2.2.2 = false) ∧
    (∀ (s : SensorManager) (reads : List (Option RawSample × RawSample)),
      s.using_real_sensor = false →
      (SensorManager.runReads calcAtt s reads).1.using_real_sensor = false ∧
      ∀ out ∈ (SensorManager.runReads calcAtt s reads).2, out.2.2.2 = false) := by
  refine ⟨rfl, ?_, ?_⟩
  · intro s simRead
    by_cases h : s.using_real_sensor
    · obtain ⟨ax, ay, az, gz⟩ := simRead
      rcases hc : calcAtt ax ay az with ⟨roll, pitch⟩
      simp [SensorManager.read_attitude, h, hc]
    · exact read_attitude_sticky_step calcAtt s none simRead (by simpa using h)
  · intro s reads
    induction reads generalizing s with
    | nil => intro h; simpa [SensorManager.runReads] using h
    | cons head tail ih =>
      intro h
      obtain ⟨realRead, simRead⟩ := head
      obtain ⟨h1, h2⟩ := read_attitude_sticky_step calcAtt s realRead simRead h
      obtain ⟨ih1, ih2⟩ := ih _ h1
      refine ⟨?_, ?_⟩
      · simpa [SensorManager.runReads] using ih1
      · intro out hout
        simp only [SensorManager.runReads, List.mem_cons] at hout
        rcases hout with rfl | hout
        · exact h2
        · exact ih2 out hout

/-- Witness for `sensor_fallback_sticky`: a trivial attitude computation, a
manager already on the simulated source, and a two-read session in which the
first read would even see a real sample. -/
theorem sensor_fallback_sticky_witness :
    (SensorManager.runReads (fun _ _ _ => (0, 0)) (SensorManager.init false)
      [(some (0, 0, 1, 0), (0, 0, 1, 0)), (none, (0, 0, 1, 0))]).1.using_real_sensor = false :=
  ((sensor_fallback_sticky (fun _ _ _ => (0, 0))).2.2 (SensorManager.init false)
    [(some (0, 0, 1, 0), (0, 0, 1, 0)), (none, (0, 0, 1, 0))] rfl).1

/-- Helper: the tick body never touches `loop_count`. -/
theorem tickBody_loop_count (s : MainState) (env : TickEnv) :
    (tickBody s env).1.loop_count = s.loop_count := by
  unfold tickBody
  repeat' split
  all_goals try simp_all [set_neutral]
  all_goals split_ifs <;> rfl

/-- Claim C8: `_main_loop` increments `loop_count` each tick; if any stage of
the tick body raises, the exception is caught at the tick boundary and the
result has all four servos forced to the neutral angle; and an error-free
tick just keeps the state the body computed.  `main_loop` is a total
function into `MainState`: no exception propagates to `run`, so the loop
continues on the next tick. -/
theorem main_loop_error_containment (s : MainState) (env : TickEnv) :
    (main_loop s env).loop_count = s.loop_count + 1 ∧
    (∀ e : PyErr, (tickBody { s with loop_count := s.loop_count + 1 } env).2 = some e →
      (main_loop s env).servos = List.replicate 4 90) ∧
    ((tickBody { s with loop_count := s.loop_count + 1 } env).2 = none →
      main_loop s env = (tickBody { s with loop_count := s.loop_count + 1 } env).1) := by
  refine ⟨?_, ?_, ?_⟩
  · have hl := tickBody_loop_count { s with loop_count := s.loop_count + 1 } env
    rcases hb : tickBody { s with loop_count := s.loop_count + 1 } env with ⟨s1, o⟩
    rw [hb] at hl
    simp only [main_loop]
    rw [hb]
    cases o <;> simpa [set_neutral] using hl
  · intro e he
    rcases hb : tickBody { s with loop_count := s.loop_count + 1 } env with ⟨s1, o⟩
    rw [hb] at he
    simp only [main_loop]
    rw [hb]
    cases o with
    | none => simp at he
    | some e2 => simp [set_neutral]
  · intro he
    rcases hb : tickBody { s with loop_count := s.loop_count + 1 } env with ⟨s1, o⟩
    rw [hb] at he
    simp only [main_loop]
    rw [hb]
    cases o with
    | none => rfl
    | some e2 => simp at he

/-- Witness for `main_loop_error_containment`: a tick whose sensor read
raises; the caught error forces the four servos to neutral. -/
theorem main_loop_error_containment_witness :
    (main_loop ⟨0, true, [100, 80, 120, 70]⟩
      ⟨.error .typeError, .ok (), .ok [95, 85, 92, 91], .ok (), .ok (), .ok ()⟩).servos =
      List.replicate 4 90 :=
  (main_loop_error_containment ⟨0, true, [100, 80, 120, 70]⟩
    ⟨.error .typeError, .ok (), .ok [95, 85, 92, 91], .ok (), .ok (), .ok ()⟩).2.1
    .typeError rfl

/-- Helper: the integral clamp lands in the safety interval. -/
theorem clamp_integral_mem (x : ℚ) :
    -SAFETY_LIMITS.max_pid_integral ≤ clamp_integral x ∧
    clamp_integral x ≤ SAFETY_LIMITS.max_pid_integral := by
  unfold clamp_integral
  exact ⟨le_max_left _ _, max_le (by norm_num [SAFETY_LIMITS]) (min_le_left _ _)⟩

/-- Helper: `calculate` always stores the clamped integral, whether or not
the derivative division raises. -/
theorem calculate_integral (table : List FlightMode) (s : PIDController)
    (roll pitch yaw_rate dt : ℚ) :
    (PIDController.calculate table s roll pitch yaw_rate dt).1.integral =
      fun i => clamp_integral (s.integral i +
        pid_errors (table.getD s.flight_mode default) roll pitch yaw_rate i * dt) := by
  simp only [PIDController.calculate]
  split <;> rfl

/-- Helper: for a nonzero timestep, `calculate` replaces `prev_error` with
the fresh errors and returns normally. -/
theorem calculate_of_dt_ne (table : List FlightMode) (s : PIDController)
    (roll pitch yaw_rate dt : ℚ) (hdt : dt ≠ 0) :
    (PIDController.calculate table s roll pitch yaw_rate dt).1.prev_error =
      pid_errors (table.getD s.flight_mode default) roll pitch yaw_rate ∧
    (PIDController.calculate table s roll pitch yaw_rate dt).2.isSome = true := by
  simp only [PIDController.calculate]
  rw [if_neg hdt]
  exact ⟨rfl, rfl⟩

/-- Helper: the state returned by `calculate_servo_commands` is exactly the
state of `calculate` at the default timestep 1/10. -/
theorem calculate_servo_commands_fst (table : List FlightMode)
    (s : PIDController) (roll pitch yaw_rate : ℚ) :
    (PIDController.calculate_servo_commands table s roll pitch yaw_rate).1 =
      (PIDController.calculate table s roll pitch yaw_rate (1/10)).1 := by
  unfold PIDController.calculate_servo_commands
  rcases hc : PIDController.calculate table s roll pitch yaw_rate (1/10) with ⟨s2, o⟩
  cases o <;> rfl

/-- Claim C2 (counterexample): at dt = 0 with attitude (10, 5, 2) and the
stabilization gains, `calculate` does not return normally — the unguarded
derivative division `(errors[i] - prev_error[i]) / dt` raises
ZeroDivisionError (the `none` outcome). -/
theorem calculate_dt_zero_counterexample :
    (PIDController.calculate specFLIGHT_MODES PIDController.init 10 5 2 0).2 = none := by
  rfl

/-- Claim C2 (amended): calling `calculate` with dt = 0 raises
ZeroDivisionError at the derivative line — after the integral update and
clamp, before `prev_error` is reassigned — rather than treating the
derivative as 0; for every dt ≠ 0 the call returns normally. -/
theorem calculate_dt_zero_raises (table : List FlightMode) (s : PIDController)
    (roll pitch yaw_rate : ℚ) :
    (PIDController.calculate table s roll pitch yaw_rate 0).2 = none ∧
    (PIDController.calculate table s roll pitch yaw_rate 0).1.integral =
      (fun i => clamp_integral (s.integral i +
        pid_errors (table.getD s.flight_mode default) roll pitch yaw_rate i * 0)) ∧
    (PIDController.calculate table s roll pitch yaw_rate 0).1.prev_error = s.prev_error ∧
    ∀ dt : ℚ, dt ≠ 0 →
      (PIDController.calculate table s roll pitch yaw_rate dt).2.isSome = true := by
  refine ⟨?_, calculate_integral table s roll pitch yaw_rate 0, ?_, ?_⟩
  · simp [PIDController.calculate]
  · simp [PIDController.calculate]
  · intro dt hdt
    exact (calculate_of_dt_ne table s roll pitch yaw_rate dt hdt).2

/-- Witness for `calculate_dt_zero_raises`: the zero and a nonzero timestep
at concrete inputs. -/
theorem calculate_dt_zero_raises_witness :
    (PIDController.calculate specFLIGHT_MODES PIDController.init 10 5 2 0).2 = none ∧
    (PIDController.calculate specFLIGHT_MODES PIDController.init 10 5 2 (1/10)).2.isSome = true :=
  ⟨(calculate_dt_zero_raises specFLIGHT_MODES PIDController.init 10 5 2).1,
   (calculate_dt_zero_raises specFLIGHT_MODES PIDController.init 10 5 2).2.2.2 (1/10)
     (by norm_num)⟩

/-- Helper: one interface operation preserves the integral bound. -/
theorem applyOp_integral_bounded (table : List FlightMode) (s : PIDController)
    (op : PIDOp) (h : IntegralBounded s) :
    IntegralBounded (PIDController.applyOp table s op) := by
  cases op with
  | calcOp roll pitch yaw_rate dt =>
    intro i
    simp only [PIDController.applyOp, calculate_integral]
    exact clamp_integral_mem _
  | servoOp roll pitch yaw_rate =>
    intro i
    simp only [PIDController.applyOp, calculate_servo_commands_fst, calculate_integral]
    exact clamp_integral_mem _
  | resetOp =>
    intro i
    simp only [PIDController.applyOp, PIDController.reset]
    norm_num [SAFETY_LIMITS]
  | setModeOp mode_index =>
    simp only [PIDController.applyOp, PIDController.set_flight_mode]
    split_ifs with h1 h2
    · intro i
      simp only [PIDController.reset]
      norm_num [SAFETY_LIMITS]
    · exact h
    · exact h

/-- Claim C5: starting from the freshly initialized controller, after any
sequence of interface operations — `calculate` with arbitrary attitude
inputs and dt (also via `calculate_servo_commands`), `reset`,
`set_flight_mode` — every `integral[i]` lies within
`[-max_pid_integral, +max_pid_integral]` = [-10, +10]; as the sequence is
arbitrary, the bound holds after each operation of any run. -/
theorem pid_integral_invariant (table : List FlightMode) (ops : List PIDOp) :
    IntegralBounded (ops.foldl (PIDController.applyOp table) PIDController.init) := by
  have h0 : IntegralBounded PIDController.init := by
    intro i
    norm_num [PIDController.init, SAFETY_LIMITS]
  have haux : ∀ (l : List PIDOp) (s : PIDController), IntegralBounded s →
      IntegralBounded (l.foldl (PIDController.applyOp table) s) := by
    intro l
    induction l with
    | nil => intro s hs; simpa using hs
    | cons op tl ih =>
      intro s hs
      simpa using ih _ (applyOp_integral_bounded table s op hs)
  exact haux ops _ h0

/-- Helper: the servo clamp lands in `[servo_min_angle, servo_max_angle]`. -/
theorem clamp_servo_mem (x : ℚ) :
    SAFETY_LIMITS.servo_min_angle ≤ clamp_servo x ∧
    clamp_servo x ≤ SAFETY_LIMITS.servo_max_angle := by
  unfold clamp_servo
  exact ⟨le_max_left _ _, max_le (by norm_num [SAFETY_LIMITS]) (min_le_left _ _)⟩

/-- Helper: integer conversion after the servo clamp stays within
`[servo_min_angle, servo_max_angle]`. -/
theorem pyInt_clamp_servo_mem (x : ℚ) :
    SAFETY_LIMITS.servo_min_angle ≤ (pyInt (clamp_servo x) : ℚ) ∧
    (pyInt (clamp_servo x) : ℚ) ≤ SAFETY_LIMITS.servo_max_angle := by
  obtain ⟨hlo, hhi⟩ := clamp_servo_mem x
  have hlo30 : (30 : ℚ) ≤ clamp_servo x := by simpa [SAFETY_LIMITS] using hlo
  have hnn : ¬ clamp_servo x < 0 := by linarith
  have hflo : (clamp_servo x).floor = ⌊clamp_servo x⌋ := by
    rw [Rat.floor_def' (clamp_servo x), Rat.floor_def]
  have hfl : (30 : ℤ) ≤ ⌊clamp_servo x⌋ := Int.le_floor.mpr (by exact_mod_cast hlo30)
  unfold pyInt
  rw [if_neg hnn, hflo]
  constructor
  · have hq : ((30 : ℤ) : ℚ) ≤ (⌊clamp_servo x⌋ : ℚ) := by exact_mod_cast hfl
    simp only [SAFETY_LIMITS]
    exact le_trans (by norm_num) hq
  · exact le_trans (Int.floor_le _) hhi

/-- Claim C4: `calculate_servo_commands` emits exactly the four mixer values
neutral + flapsBias − rollOut, neutral + flapsBias + rollOut,
neutral − pitchOut, neutral + yawOut, each clamped to
[servo_min_angle, servo_max_angle] and converted to an integer degree; in
particular every emitted command lies within that range. -/
theorem calculate_servo_commands_formula_and_range (table : List FlightMode)
    (s : PIDController) (roll pitch yaw_rate : ℚ) :
    (∀ ro po yo,
      (PIDController.calculate table s roll pitch yaw_rate (1/10)).2 = some (ro, po, yo) →
      (PIDController.calculate_servo_commands table s roll pitch yaw_rate).2 = some
        [pyInt (clamp_servo (SAFETY_LIMITS.servo_neutral_angle +
            (table.getD s.flight_mode default).flaps - ro)),
         pyInt (clamp_servo (SAFETY_LIMITS.servo_neutral_angle +
            (table.getD s.flight_mode default).flaps + ro)),
         pyInt (clamp_servo (SAFETY_LIMITS.servo_neutral_angle - po)),
         pyInt (clamp_servo (SAFETY_LIMITS.servo_neutral_angle + yo))]) ∧
    (∀ cmds,
      (PIDController.calculate_servo_commands table s roll pitch yaw_rate).2 = some cmds →
      ∀ c ∈ cmds, SAFETY_LIMITS.servo_min_angle ≤ (c : ℚ) ∧
        (c : ℚ) ≤ SAFETY_LIMITS.servo_max_angle) := by
  constructor
  · intro ro po yo h
    rcases hc : PIDController.calculate table s roll pitch yaw_rate (1/10) with ⟨s2, o⟩
    rw [hc] at h
    simp only at h
    subst h
    unfold PIDController.calculate_servo_commands
    rw [hc]
    simp
  · intro cmds h c hcm
    rcases hc : PIDController.calculate table s roll pitch yaw_rate (1/10) with ⟨s2, o⟩
    unfold PIDController.calculate_servo_commands at h
    rw [hc] at h
    cases o with
    | none => simp at h
    | some pid_out =>
      obtain ⟨ro, po, yo⟩ := pid_out
      simp only [List.map, Option.some.injEq] at h
      subst h
      simp only [List.mem_cons, List.not_mem_nil, or_false] at hcm
      rcases hcm with rfl | rfl | rfl | rfl <;> exact pyInt_clamp_servo_mem _

/-- Witness for `calculate_servo_commands_formula_and_range`: at attitude
(10, 5, 2) from the fresh controller, the PID outputs are
(−25, −30, −12.412) and the first emitted command — the left flap at
115° — is inside the safety range. -/
theorem calculate_servo_commands_formula_and_range_witness :
    SAFETY_LIMITS.servo_min_angle ≤ ((115 : ℤ) : ℚ) ∧
      ((115 : ℤ) : ℚ) ≤ SAFETY_LIMITS.servo_max_angle := by
  have hc : (PIDController.calculate specFLIGHT_MODES PIDController.init 10 5 2 (1/10)).2
      = some (-25, -30, -3103/250) := by
    norm_num [PIDController.calculate, specFLIGHT_MODES, specFlightMode, STABILIZATION_GAINS,
      STABILIZATION_LIMITS, pid_errors, clamp_integral, limit_output, PIDController.init,
      SAFETY_LIMITS, List.getD, max_def, min_def]
  have h115 : pyInt (clamp_servo (SAFETY_LIMITS.servo_neutral_angle +
      (specFLIGHT_MODES.getD (PIDController.init).flight_mode default).flaps - (-25))) = 115 := by
    norm_num [pyInt, clamp_servo, SAFETY_LIMITS, specFLIGHT_MODES, specFlightMode,
      PIDController.init, List.getD, max_def, min_def, Rat.floor]
  have hcmds := (calculate_servo_commands_formula_and_range specFLIGHT_MODES
    PIDController.init 10 5 2).1 (-25) (-30) (-3103/250) hc
  rw [h115] at hcmds
  exact (calculate_servo_commands_formula_and_range specFLIGHT_MODES
    PIDController.init 10 5 2).2 _ hcmds 115 (List.mem_cons_self _ _)

/-- Claim C10: `calculate_servo_commands` invokes `calculate` with the
default timestep dt = 0.1: its resulting controller state is exactly that of
`calculate` at dt = 1/10 — each integral accumulates error·0.1 (then
clamped) and `prev_error` is replaced after the derivative divided by 0.1 —
while the orchestrator's tick sleep is 1000 // main_loop_frequency = 20 ms
per tick, independent of that timestep. -/
theorem calculate_servo_commands_uses_default_dt (table : List FlightMode)
    (s : PIDController) (roll pitch yaw_rate : ℚ) :
    (PIDController.calculate_servo_commands table s roll pitch yaw_rate).1 =
      (PIDController.calculate table s roll pitch yaw_rate (1/10)).1 ∧
    (PIDController.calculate_servo_commands table s roll pitch yaw_rate).1.integral =
      (fun i => clamp_integral (s.integral i +
        pid_errors (table.getD s.flight_mode default) roll pitch yaw_rate i * (1/10))) ∧
    (PIDController.calculate_servo_commands table s roll pitch yaw_rate).1.prev_error =
      pid_errors (table.getD s.flight_mode default) roll pitch yaw_rate ∧
    1000 / SYSTEM_CONFIG.main_loop_frequency = 20 := by
  refine ⟨calculate_servo_commands_fst table s roll pitch yaw_rate, ?_, ?_,
    by norm_num [SYSTEM_CONFIG]⟩
  · rw [calculate_servo_commands_fst]
    exact calculate_integral table s roll pitch yaw_rate (1/10)
  · rw [calculate_servo_commands_fst]
    exact (calculate_of_dt_ne table s roll pitch yaw_rate (1/10) (by norm_num)).1

end Planador
